import Mathlib

/-!
# Verification of `app.py` (salasarservices/reviews.reply)

Shallow embedding of the review-reply Streamlit app: the reply composer
`gen_reply_by_rating`, the two review fetchers, the unanswered filter and
draft loop, the connect handler, and the post-selected-replies loop.
Python dictionaries with optional keys are embedded as structures of
`Option` fields; Python truthiness of optional strings is `truthyStr`;
failing calls are `Except`-valued parameters.
-/

namespace ReviewsReply

/-- Python truthiness of an optional string value: `None` and `""` are falsy. -/
def truthyStr : Option String → Bool
  | some s => s != ""
  | none => false

/-- Python `a or b` on strings: `a` if non-empty, else `b`. -/
def pyOrStr (a b : String) : String :=
  if a != "" then a else b

/-- Python `str()` / f-string rendering of an optional string (`None` prints as `"None"`). -/
def pyStr : Option String → String
  | some s => s
  | none => "None"

/-- `sub` occurs as a contiguous substring of `s` (models Python `in` /
"contains the exact substring"). -/
def strContains (s sub : String) : Prop :=
  sub.data <:+: s.data

/-- `pre` is a prefix of `s` ("the reply starts with this opening"). -/
def strStarts (s pre : String) : Prop :=
  pre.data <+: s.data

/-!
## Reply composer (`gen_reply_by_rating`, app.py lines 38-54)

The five opening templates are the five branch bodies of the Python
`if/elif/else` on `rating`; `star_part` and the final `extra`/signature
assembly are verbatim from the source.
-/

/-- `star_part = f"{rating} star" if rating == 1 else f"{rating} stars"` (line 39). -/
def star_part (rating : Int) : String :=
  if rating = 1 then toString rating ++ " star" else toString rating ++ " stars"

/-- Branch body for `rating >= 5` (line 41). -/
def opening_delighted (first_name : String) (rating : Int) : String :=
  "Hi " ++ first_name ++ ", Thank you for the " ++ star_part rating ++
    " review. We are delighted you had an excellent experience."

/-- Branch body for `rating == 4` (line 43). -/
def opening_appreciative (first_name : String) (rating : Int) : String :=
  "Hi " ++ first_name ++ ", Thank you for the " ++ star_part rating ++
    " review. We appreciate the feedback."

/-- Branch body for `rating == 3` (line 45). -/
def opening_honest (first_name : String) (rating : Int) : String :=
  "Hi " ++ first_name ++ ", Thank you for the " ++ star_part rating ++
    " review. We appreciate your honest feedback and will work to improve."

/-- Branch body for `rating == 2` (line 47). -/
def opening_improve (first_name : String) (rating : Int) : String :=
  "Hi " ++ first_name ++ ", We\x27re sorry your experience was not ideal. Thank you for the " ++
    star_part rating ++ " review — we\x27ll use this to improve."

/-- Branch body for the final `else` (line 49). -/
def opening_invite (first_name : String) (rating : Int) : String :=
  "Hi " ++ first_name ++ ", We\x27re very sorry you had a bad experience. Thank you for the " ++
    star_part rating ++ " review — please contact us so we can make it right."

/-- The `start` local of `gen_reply_by_rating`: opening selection by rating
(lines 40-49). -/
def gen_start (first_name : String) (rating : Int) : String :=
  if 5 ≤ rating then opening_delighted first_name rating
  else if rating = 4 then opening_appreciative first_name rating
  else if rating = 3 then opening_honest first_name rating
  else if rating = 2 then opening_improve first_name rating
  else opening_invite first_name rating

/-- The fixed signature appended to every reply (lines 52-54). -/
def signature_block : String := "\n\nTeam Salasar Services"

/-- `gen_reply_by_rating(first_name, rating, extra)` (lines 38-54); `if extra:`
is string truthiness. -/
def gen_reply_by_rating (first_name : String) (rating : Int) (extra : String) : String :=
  if extra != "" then gen_start first_name rating ++ " " ++ extra ++ signature_block
  else gen_start first_name rating ++ signature_block

/-!
## Common review record

Both fetchers normalize into dictionaries with these keys; absent keys are
`none`.  The Places fetcher never emits a `name` key and always sets
`reply = None`; the Business Profile fetcher may leave any field `None`.
-/

structure Review where
  reviewId : Option String := none
  name : Option String := none
  author_name : Option String := none
  rating : Option Int := none
  text : Option String := none
  reply : Option String := none
deriving Repr, DecidableEq

/-!
## Places fetcher (`get_reviews_places`, app.py lines 60-80)

The HTTP layer is abstracted: `httpStatus` is the response status code
(`requests.Response.raise_for_status` raises `HTTPError`, whose message
starts with the status code, for any status >= 400), and `PlacesBody` is
the decoded JSON body.
-/

structure PlacesRawReview where
  author_url : Option String := none
  author_name : Option String := none
  rating : Option Int := none
  text : Option String := none
deriving Repr, DecidableEq

structure PlacesBody where
  status : Option String := none
  error_message : Option String := none
  reviews : List PlacesRawReview := []
deriving Repr, DecidableEq

/-- One entry of the `normalized` list (lines 72-79): `reviewId` is
`rev.get("author_url", "") or ""`, `rating` defaults to `0`, `reply` is
always `None`. -/
def normalizePlacesReview (rev : PlacesRawReview) : Review :=
  { reviewId := some (pyOrStr (rev.author_url.getD "") "")
    name := none
    author_name := some (rev.author_name.getD "")
    rating := some (rev.rating.getD 0)
    text := some (rev.text.getD "")
    reply := none }

/-- `get_reviews_places` (lines 60-80): `raise_for_status` for HTTP >= 400,
then a `RuntimeError` unless the body-level `status` is `"OK"`, else the
normalized list. -/
def get_reviews_places (httpStatus : Nat) (body : PlacesBody) :
    Except String (List Review) :=
  if 400 ≤ httpStatus then
    .error (toString httpStatus ++
      (if httpStatus < 500 then " Client Error" else " Server Error"))
  else if body.status ≠ some "OK" then
    .error ("Places API error: " ++ pyStr body.status ++ " - " ++ pyStr body.error_message)
  else
    .ok (body.reviews.map normalizePlacesReview)

/-!
## Business Profile fetcher (`list_reviews_businessprofile`, lines 107-126)
-/

/-- The JSON value found in a record's `starRating` field: a string, or
anything that fails `isinstance(star, str)`. -/
inductive StarField where
  | str (s : String)
  | nonstr
deriving Repr, DecidableEq

/-- The `mapping` dict of line 115, in insertion order. -/
def star_rating_mapping : List (String × Int) :=
  [("ONE", 1), ("TWO", 2), ("THREE", 3), ("FOUR", 4), ("FIVE", 5)]

/-- Python `str.upper()` (character-wise uppercasing; the star tokens are
ASCII). -/
def pyUpper (s : String) : String :=
  String.mk (s.data.map Char.toUpper)

/-- Lines 112-116: `rating = mapping.get(star.upper())` when `star` is a
string, else `rating = None`. -/
def parse_star (star : Option StarField) : Option Int :=
  match star with
  | some (.str s) => star_rating_mapping.lookup (pyUpper s)
  | _ => none

/-- One raw review record from the Business Profile list call.
`reviewReply = none` models an absent (or falsy) `reviewReply` dict;
`reviewReply = some c` a present one whose `comment` is `c`. -/
structure BPRawReview where
  reviewId : Option String := none
  name : Option String := none
  displayName : Option String := none
  starRating : Option StarField := none
  comment : Option String := none
  reviewReply : Option (Option String) := none
deriving Repr, DecidableEq

/-- One entry of the `reviews` list built in lines 117-125. -/
def normalizeBPReview (r : BPRawReview) : Review :=
  { reviewId := r.reviewId
    name := r.name
    author_name := some (r.displayName.getD "")
    rating := parse_star r.starRating
    text := r.comment
    reply := r.reviewReply.getD none }

/-- `list_reviews_businessprofile` over an already-decoded response list. -/
def list_reviews_businessprofile (rawReviews : List BPRawReview) : List Review :=
  rawReviews.map normalizeBPReview

/-!
## Connect handler (lines 184-194) and service construction (lines 86-91)

The service handle type is abstract; the two failing external steps
(credential/client build, account+location enumeration) are `Except`-valued
parameters.  `st.session_state` holds only the two keys the app writes.
-/

structure Location where
  name : Option String := none
  storeCode : Option String := none
deriving Repr, DecidableEq

/-- `accounts.items()` in insertion order: account resource name to its
location list (built by `list_accounts_and_locations`, lines 94-104). -/
abbrev Accounts := List (String × List Location)

structure SessionState (Service : Type) where
  bp_service : Option Service := none
  bp_accounts : Option Accounts := none
deriving Repr, DecidableEq

inductive ActionOutcome where
  | success
  | error (msg : String)
deriving Repr, DecidableEq

/-- `create_business_profile_service_from_service_account` (lines 86-91):
raises when the Google client libraries are missing, otherwise performs the
credential build (abstracted as `buildResult`). -/
def create_business_profile_service_from_service_account {Service : Type}
    (googleClientAvailable : Bool) (buildResult : Except String Service) :
    Except String Service :=
  if !googleClientAvailable then
    .error "googleapiclient or google-auth packages are not installed. See requirements.txt."
  else buildResult

/-- The `Connect & list accounts/locations` button handler (lines 184-194):
build the service, enumerate accounts/locations, and only then write the two
session keys; any exception is caught and the session is left as it was. -/
def connect_action {Service : Type}
    (buildService : Except String Service)
    (listAccountsAndLocations : Service → Except String Accounts)
    (st : SessionState Service) : SessionState Service × ActionOutcome :=
  match buildService with
  | .error e => (st, .error ("Error connecting: " ++ e))
  | .ok service =>
    match listAccountsAndLocations service with
    | .error e => (st, .error ("Error connecting: " ++ e))
    | .ok accounts =>
      ({ bp_service := some service, bp_accounts := some accounts }, .success)

/-!
## Unanswered filter and draft loop (lines 211-231)
-/

/-- Line 213: `unanswered = [r for r in reviews if not r.get("reply")]`. -/
def unansweredOf (reviews : List Review) : List Review :=
  reviews.filter (fun r => !truthyStr r.reply)

/-- Line 222: `rating = rev.get("rating") or 4` (Python `or`: `None` and `0`
are falsy). -/
def effective_rating (rev : Review) : Int :=
  match rev.rating with
  | none => 4
  | some v => if v = 0 then 4 else v

/-- Line 221: `author = rev.get("author_name") or "Customer"`. -/
def effective_author (rev : Review) : String :=
  pyOrStr (rev.author_name.getD "") "Customer"

/-- Line 226: `author.split()[0] if isinstance(author, str) and author.strip()
else "there"`; Python `str.split()` splits on whitespace runs and drops
empty pieces. -/
def first_name_of (author : String) : String :=
  if author.trim != "" then
    ((author.split Char.isWhitespace).filter (fun w => w != "")).headD "there"
  else "there"

/-- What the draft loop shows and pre-fills for one unanswered review at
index `i` (lines 219-228): the caption line and the `gen_reply_by_rating`
preview placed in the editable text area. -/
structure Draft where
  review : Review
  header : String
  preview : String
deriving Repr, DecidableEq

def draftFor (default_extra : String) (i : Nat) (rev : Review) : Draft :=
  let author := effective_author rev
  let rating := effective_rating rev
  { review := rev
    header := "Review #" ++ toString (i + 1) ++ " — " ++ author ++ " (" ++
      toString rating ++ " stars)"
    preview := gen_reply_by_rating (first_name_of author) rating default_extra }

/-- The `for i, rev in enumerate(unanswered)` loop (line 219). -/
def draftAll (reviews : List Review) (default_extra : String) : List Draft :=
  (unansweredOf reviews).enum.map (fun p => draftFor default_extra p.1 p.2)

/-- One element of `to_post` (line 231). -/
structure PostItem where
  review : Review
  reply_text : String
deriving Repr, DecidableEq

/-- Lines 228-231: per review, the text area holds the preview unless the
user edited it (`edited i`), and the review joins `to_post` iff its
checkbox (`post_checkbox i`) is on. -/
def selectToPost (reviews : List Review) (default_extra : String)
    (post_checkbox : Nat → Bool) (edited : Nat → Option String) : List PostItem :=
  (draftAll reviews default_extra).enum.filterMap (fun p =>
    if post_checkbox p.1 then
      some { review := p.2.review, reply_text := (edited p.1).getD p.2.preview }
    else none)

/-!
## Post-selected-replies loop (lines 236-270)

`post` abstracts `post_reply_businessprofile` (lines 129-132): it receives
the review resource name and the reply text and either returns the
provider response (rendered as a string) or raises.  `postOneTr` returns,
next to the result dict, the trace of write calls the iteration performed,
so that "no write call happens" and "no retry happens" are statable.
-/

inductive PostResult where
  | posted (reviewId : String) (response : String)
  | skipped (reason : String)
  | failed (reviewId : String) (error : String)
deriving Repr, DecidableEq

/-- A performed write call: review resource name and comment text. -/
abbrev WriteCall := String × String

/-- Lines 253-259: scan `accounts.items()` for the first account having
exactly one location (`len(locs) == 1`), in insertion order. -/
def findSingleLocation : Accounts → Option Location
  | [] => none
  | (_, locs) :: rest =>
    match locs with
    | [l] => some l
    | _ => findSingleLocation rest

/-- One iteration of the posting loop (lines 242-268). -/
def postOneTr (accounts : Accounts) (post : String → String → Except String String)
    (item : PostItem) : PostResult × List WriteCall :=
  let rev := item.review
  if !truthyStr rev.reviewId then
    (.skipped "no reviewId", [])
  else
    let review_id := rev.reviewId.getD ""
    let review_name : Option String :=
      if truthyStr rev.name then rev.name
      else (findSingleLocation accounts).map
        (fun l => pyStr l.name ++ "/reviews/" ++ review_id)
    if !truthyStr review_name then
      (.skipped "cannot construct review resource name", [])
    else
      match post (review_name.getD "") item.reply_text with
      | .ok resp => (.posted review_id resp, [(review_name.getD "", item.reply_text)])
      | .error e => (.failed review_id e, [(review_name.getD "", item.reply_text)])

def postOne (accounts : Accounts) (post : String → String → Except String String)
    (item : PostItem) : PostResult :=
  (postOneTr accounts post item).1

/-- The whole loop: one result appended per item, write calls in order. -/
def postSelectedTr (accounts : Accounts)
    (post : String → String → Except String String) :
    List PostItem → List PostResult × List WriteCall
  | [] => ([], [])
  | item :: rest =>
    let rc := postOneTr accounts post item
    let rest' := postSelectedTr accounts post rest
    (rc.1 :: rest'.1, rc.2 ++ rest'.2)

def postSelected (accounts : Accounts)
    (post : String → String → Except String String)
    (to_post : List PostItem) : List PostResult :=
  to_post.map (postOne accounts post)

/-!
## Concrete inputs used by the end-to-end posting scenario and the C1
counterexample
-/

/-- A fetched review that carries a direct resource name but no `reviewId`
(both fields come independently from the provider record, lines 118-119). -/
def c1CexItem : PostItem :=
  { review := { reviewId := none, name := some "accounts/a1/locations/l1/reviews/r9" }
    reply_text := "Thank you" }

/-- A provider whose write call succeeds except on the second scenario
review, where it raises. -/
def scPost : String → String → Except String String := fun rn _ =>
  if rn = "accounts/a/locations/l/reviews/r2" then .error "boom" else .ok "ok"

/-- Two selected replies: the first write succeeds, the second errors. -/
def scItems : List PostItem :=
  [{ review := { reviewId := some "r1", name := some "accounts/a/locations/l/reviews/r1" }
     reply_text := "t1" },
   { review := { reviewId := some "r2", name := some "accounts/a/locations/l/reviews/r2" }
     reply_text := "t2" }]

/-!
## General lemmas on the string embedding
-/

theorem data_append (a b : String) : (a ++ b).data = a.data ++ b.data := rfl

theorem contains_cong {big : List Char} {sub t : List Char}
    (h : sub <:+: t) (he : t = big) : sub <:+: big := he ▸ h

theorem contains_peel {sub t : List Char} (L : List Char) (h : sub <:+: t) :
    sub <:+: L ++ t := by
  obtain ⟨u, v, huv⟩ := h
  exact ⟨L ++ u, v, by rw [← huv]; simp [List.append_assoc]⟩

theorem contains_drop {sub t : List Char} (R : List Char) (h : sub <:+: t) :
    sub <:+: t ++ R := by
  obtain ⟨u, v, huv⟩ := h
  exact ⟨u, v ++ R, by rw [← huv]; simp [List.append_assoc]⟩

/-!
## Composer lemmas
-/

theorem gen_start_top {n : String} {r : Int} (h : 5 ≤ r) :
    gen_start n r = opening_delighted n r := by
  simp only [gen_start]
  rw [if_pos h]

theorem gen_start_eq_four {n : String} {r : Int} (h : r = 4) :
    gen_start n r = opening_appreciative n r := by
  subst h
  norm_num [gen_start]

theorem gen_start_eq_three {n : String} {r : Int} (h : r = 3) :
    gen_start n r = opening_honest n r := by
  subst h
  norm_num [gen_start]

theorem gen_start_eq_two {n : String} {r : Int} (h : r = 2) :
    gen_start n r = opening_improve n r := by
  subst h
  norm_num [gen_start]

theorem gen_start_bottom {n : String} {r : Int} (h : r ≤ 1) :
    gen_start n r = opening_invite n r := by
  simp only [gen_start]
  rw [if_neg (by omega), if_neg (by omega), if_neg (by omega), if_neg (by omega)]

/-- The composed reply always starts with the selected opening. -/
theorem starts_genreply (n extra : String) (r : Int) :
    strStarts (gen_reply_by_rating n r extra) (gen_start n r) := by
  unfold gen_reply_by_rating strStarts
  by_cases he : extra = ""
  · subst he
    simp only [bne_self_eq_false, if_neg, Bool.false_eq_true, not_false_eq_true, if_false]
    exact ⟨signature_block.data, by simp [data_append]⟩
  · rw [if_pos (by simpa using he)]
    exact ⟨(" " ++ extra ++ signature_block).data,
      by simp [data_append, List.append_assoc]⟩

/-- A substring of the selected opening is a substring of the full reply. -/
theorem contains_genreply (n extra : String) (r : Int) (sub : String)
    (h : strContains (gen_start n r) sub) :
    strContains (gen_reply_by_rating n r extra) sub := by
  obtain ⟨v, hv⟩ := starts_genreply n extra r
  exact contains_cong (contains_drop v h) hv

/-- C4: for every rating r in {1,2,3,4,5} and every non-empty first name n,
the reply composed with empty extra text contains the exact substring
"1 star" when r = 1 and "r stars" (plural, r rendered as a number) for the
other ratings. -/
theorem claim_C4 (n : String) (hn : n ≠ "") (r : Int)
    (hr : r ∈ ([1, 2, 3, 4, 5] : List Int)) :
    strContains (gen_reply_by_rating n r "")
      (if r = 1 then "1 star" else toString r ++ " stars") := by
  fin_cases hr
  · apply contains_genreply
    rw [gen_start_bottom (by norm_num)]
    unfold strContains opening_invite
    simp only [data_append, List.append_assoc]
    exact contains_peel _ (contains_peel _ (by decide))
  · apply contains_genreply
    rw [gen_start_eq_two rfl]
    unfold strContains opening_improve
    simp only [data_append, List.append_assoc]
    exact contains_peel _ (contains_peel _ (by decide))
  · apply contains_genreply
    rw [gen_start_eq_three rfl]
    unfold strContains opening_honest
    simp only [data_append, List.append_assoc]
    exact contains_peel _ (contains_peel _ (by decide))
  · apply contains_genreply
    rw [gen_start_eq_four rfl]
    unfold strContains opening_appreciative
    simp only [data_append, List.append_assoc]
    exact contains_peel _ (contains_peel _ (by decide))
  · apply contains_genreply
    rw [gen_start_top (by norm_num)]
    unfold strContains opening_delighted
    simp only [data_append, List.append_assoc]
    exact contains_peel _ (contains_peel _ (by decide))

theorem claim_C4_witness :
    strContains (gen_reply_by_rating "Ana" 1 "") "1 star" ∧
    strContains (gen_reply_by_rating "Ana" 2 "") (toString (2 : Int) ++ " stars") := by
  constructor
  · have h := claim_C4 "Ana" (by decide) 1 (by decide)
    simpa using h
  · have h := claim_C4 "Ana" (by decide) 2 (by decide)
    simpa using h

/-- C5: the composer selects its opening by rating bucket — every rating >= 5
yields the thanks/delighted opening, 4 the appreciative one, 3 the
honest-feedback one, 2 the apologetic/improve one, and every rating <= 1 the
apologetic/invite-contact one (the composed reply starts with that opening). -/
theorem claim_C5 (n extra : String) (r : Int) :
    (5 ≤ r → strStarts (gen_reply_by_rating n r extra) (opening_delighted n r)) ∧
    (r = 4 → strStarts (gen_reply_by_rating n r extra) (opening_appreciative n r)) ∧
    (r = 3 → strStarts (gen_reply_by_rating n r extra) (opening_honest n r)) ∧
    (r = 2 → strStarts (gen_reply_by_rating n r extra) (opening_improve n r)) ∧
    (r ≤ 1 → strStarts (gen_reply_by_rating n r extra) (opening_invite n r)) := by
  have hs := starts_genreply n extra r
  refine ⟨fun h => ?_, fun h => ?_, fun h => ?_, fun h => ?_, fun h => ?_⟩
  · rwa [gen_start_top h] at hs
  · rwa [gen_start_eq_four h] at hs
  · rwa [gen_start_eq_three h] at hs
  · rwa [gen_start_eq_two h] at hs
  · rwa [gen_start_bottom h] at hs

theorem claim_C5_witness :
    strStarts (gen_reply_by_rating "Ana" 7 "x") (opening_delighted "Ana" 7) ∧
    strStarts (gen_reply_by_rating "Ana" 0 "") (opening_invite "Ana" 0) :=
  ⟨(claim_C5 "Ana" "x" 7).1 (by norm_num),
   (claim_C5 "Ana" "" 0).2.2.2.2 (by norm_num)⟩

/-- C6: non-empty extra text is inserted between the opening and the fixed
signature block, separated from the opening by exactly one space; empty
extra text adds no extra space; the signature block is appended last in both
cases. -/
theorem claim_C6 (n : String) (r : Int) (extra : String) :
    (extra ≠ "" →
      gen_reply_by_rating n r extra =
        gen_start n r ++ " " ++ extra ++ signature_block) ∧
    (extra = "" →
      gen_reply_by_rating n r extra = gen_start n r ++ signature_block) := by
  refine ⟨fun h => ?_, fun h => ?_⟩ <;> simp [gen_reply_by_rating, h]

theorem claim_C6_witness :
    gen_reply_by_rating "Ana" 5 "Come again" =
      gen_start "Ana" 5 ++ " " ++ "Come again" ++ signature_block ∧
    gen_reply_by_rating "Ana" 5 "" = gen_start "Ana" 5 ++ signature_block :=
  ⟨(claim_C6 "Ana" 5 "Come again").1 (by decide), (claim_C6 "Ana" 5 "").2 rfl⟩

/-!
## Star-token mapping, unanswered filter, default rating
-/

/-- `parse_star` on a string token is the mapping lookup on its uppercase. -/
theorem parse_star_str (s : String) :
    parse_star (some (.str s)) = star_rating_mapping.lookup (pyUpper s) := rfl

/-- C7: in the credentialed fetcher the word-coded star token is mapped
case-insensitively — "ONE" to 1 through "FIVE" to 5 — and any other token,
as well as a non-string or absent value, yields an absent rating. -/
theorem claim_C7 (s : String) :
    (pyUpper s = "ONE" → parse_star (some (.str s)) = some 1) ∧
    (pyUpper s = "TWO" → parse_star (some (.str s)) = some 2) ∧
    (pyUpper s = "THREE" → parse_star (some (.str s)) = some 3) ∧
    (pyUpper s = "FOUR" → parse_star (some (.str s)) = some 4) ∧
    (pyUpper s = "FIVE" → parse_star (some (.str s)) = some 5) ∧
    (pyUpper s ∉ (["ONE", "TWO", "THREE", "FOUR", "FIVE"] : List String) →
      parse_star (some (.str s)) = none) ∧
    parse_star (some .nonstr) = none ∧
    parse_star none = none := by
  refine ⟨fun h => by rw [parse_star_str, h]; rfl,
    fun h => by rw [parse_star_str, h]; rfl,
    fun h => by rw [parse_star_str, h]; rfl,
    fun h => by rw [parse_star_str, h]; rfl,
    fun h => by rw [parse_star_str, h]; rfl,
    fun h => ?_, rfl, rfl⟩
  simp only [List.mem_cons, List.not_mem_nil, or_false, not_or] at h
  obtain ⟨h1, h2, h3, h4, h5⟩ := h
  have b1 : (pyUpper s == "ONE") = false := beq_eq_false_iff_ne.mpr h1
  have b2 : (pyUpper s == "TWO") = false := beq_eq_false_iff_ne.mpr h2
  have b3 : (pyUpper s == "THREE") = false := beq_eq_false_iff_ne.mpr h3
  have b4 : (pyUpper s == "FOUR") = false := beq_eq_false_iff_ne.mpr h4
  have b5 : (pyUpper s == "FIVE") = false := beq_eq_false_iff_ne.mpr h5
  rw [parse_star_str]
  simp [star_rating_mapping, List.lookup, b1, b2, b3, b4, b5]

theorem claim_C7_witness :
    parse_star (some (.str "three")) = some 3 ∧
    parse_star (some (.str "SIX")) = none :=
  ⟨(claim_C7 "three").2.2.1 (by decide),
   (claim_C7 "SIX").2.2.2.2.2.1 (by decide)⟩

/-- A falsy optional string is exactly an absent or empty one. -/
theorem not_truthy_iff (o : Option String) :
    (!truthyStr o) = true ↔ o = none ∨ o = some "" := by
  cases o with
  | none => simp [truthyStr]
  | some s => simp [truthyStr]

/-- C3: a fetched record is classified unanswered iff its reply field is
absent or empty, and only unanswered records are offered for drafting and
for posting selection. -/
theorem claim_C3 (reviews : List Review) (extra : String)
    (checks : Nat → Bool) (edits : Nat → Option String) (r : Review) :
    (r ∈ unansweredOf reviews ↔
      r ∈ reviews ∧ (r.reply = none ∨ r.reply = some "")) ∧
    (∀ d ∈ draftAll reviews extra, d.review ∈ unansweredOf reviews) ∧
    (∀ it ∈ selectToPost reviews extra checks edits,
      it.review ∈ unansweredOf reviews) := by
  have hdraft : ∀ d ∈ draftAll reviews extra, d.review ∈ unansweredOf reviews := by
    intro d hd
    obtain ⟨p, hp, rfl⟩ := List.mem_map.mp hd
    have : p.2 ∈ (unansweredOf reviews).enum.map Prod.snd :=
      List.mem_map_of_mem Prod.snd hp
    rw [List.enum_map_snd] at this
    exact this
  refine ⟨?_, hdraft, ?_⟩
  · unfold unansweredOf
    rw [List.mem_filter, not_truthy_iff]
  · intro it hit
    obtain ⟨p, hp, hsome⟩ := List.mem_filterMap.mp hit
    by_cases hc : checks p.1
    · rw [if_pos hc] at hsome
      obtain rfl := Option.some_injective _ hsome
      have : p.2 ∈ (draftAll reviews extra).enum.map Prod.snd :=
        List.mem_map_of_mem Prod.snd hp
      rw [List.enum_map_snd] at this
      exact hdraft p.2 this
    · rw [if_neg hc] at hsome
      exact absurd hsome (by simp)

theorem claim_C3_witness :
    ({ reply := none } : Review) ∈
      unansweredOf [{ reply := none }, { reply := some "thanks" }] ∧
    ({ reply := some "thanks" } : Review) ∉
      unansweredOf [{ reply := none }, { reply := some "thanks" }] := by
  constructor
  · exact (claim_C3 [{ reply := none }, { reply := some "thanks" }] ""
      (fun _ => true) (fun _ => none) { reply := none }).1.mpr
      ⟨by simp, Or.inl rfl⟩
  · intro hmem
    have h := (claim_C3 [{ reply := none }, { reply := some "thanks" }] ""
      (fun _ => true) (fun _ => none) { reply := some "thanks" }).1.mp hmem
    simp at h

/-- C10 (implicit): an unanswered review whose rating is absent or 0 — in
particular any Places record lacking a rating, which normalizes to 0 — is
drafted with rating 4: the preview is the 4-star composition (hence the
appreciative opening, by C5) and the caption shows "(4 stars)". -/
theorem claim_C10 (rev : Review) (extra : String) (i : Nat)
    (h : rev.rating = none ∨ rev.rating = some 0) :
    effective_rating rev = 4 ∧
    (draftFor extra i rev).preview =
      gen_reply_by_rating (first_name_of (effective_author rev)) 4 extra ∧
    strContains (draftFor extra i rev).header "(4 stars)" ∧
    (∀ raw : PlacesRawReview, raw.rating = none →
      (normalizePlacesReview raw).rating = some 0) := by
  have h4 : effective_rating rev = 4 := by
    rcases h with h | h <;> simp [effective_rating, h]
  have hprev : (draftFor extra i rev).preview =
      gen_reply_by_rating (first_name_of (effective_author rev))
        (effective_rating rev) extra := rfl
  have hhead : (draftFor extra i rev).header =
      "Review #" ++ toString (i + 1) ++ " — " ++ effective_author rev ++
        " (" ++ toString (effective_rating rev) ++ " stars)" := rfl
  refine ⟨h4, by rw [hprev, h4], ?_, fun raw hr => by simp [normalizePlacesReview, hr]⟩
  rw [strContains, hhead, h4]
  simp only [data_append, List.append_assoc]
  exact contains_peel _ (contains_peel _ (contains_peel _ (contains_peel _ (by decide))))

theorem claim_C10_witness :
    effective_rating { rating := none } = 4 ∧
    strContains (draftFor "" 0 { rating := none }).header "(4 stars)" := by
  have h := claim_C10 { rating := none } "" 0 (Or.inl rfl)
  exact ⟨h.1, h.2.2.1⟩

/-!
## Places fetch errors and connect-action atomicity
-/

/-- C8: the key-based fetch raises a reported error for any non-success HTTP
status (the `HTTPError` text starts with the status code) and for any
API-level status other than "OK" (the `RuntimeError` text carries the status
and the error message); on success it returns the normalized list, whose
`reply` is always absent. -/
theorem claim_C8 (httpStatus : Nat) (body : PlacesBody) :
    (400 ≤ httpStatus → ∃ e, get_reviews_places httpStatus body = .error e ∧
      strStarts e (toString httpStatus)) ∧
    (httpStatus < 400 → body.status ≠ some "OK" →
      get_reviews_places httpStatus body =
        .error ("Places API error: " ++ pyStr body.status ++ " - " ++
          pyStr body.error_message)) ∧
    (httpStatus < 400 → body.status = some "OK" →
      get_reviews_places httpStatus body =
        .ok (body.reviews.map normalizePlacesReview) ∧
      ∀ r ∈ body.reviews.map normalizePlacesReview, r.reply = none) := by
  refine ⟨fun h => ?_, fun h1 h2 => ?_, fun h1 h2 => ⟨?_, ?_⟩⟩
  · refine ⟨toString httpStatus ++
      (if httpStatus < 500 then " Client Error" else " Server Error"), ?_, ?_⟩
    · simp [get_reviews_places, h]
    · exact ⟨(if httpStatus < 500 then " Client Error" else " Server Error").data, rfl⟩
  · have h400 : ¬ 400 ≤ httpStatus := by omega
    simp [get_reviews_places, h400, h2]
  · have h400 : ¬ 400 ≤ httpStatus := by omega
    simp [get_reviews_places, h400, h2]
  · intro r hr
    obtain ⟨raw, _, rfl⟩ := List.mem_map.mp hr
    rfl

theorem claim_C8_witness :
    get_reviews_places 200
        { status := some "NOT_FOUND", error_message := some "no such place" }
      = .error ("Places API error: " ++ pyStr (some "NOT_FOUND") ++ " - " ++
          pyStr (some "no such place")) :=
  (claim_C8 200 { status := some "NOT_FOUND", error_message := some "no such place" }).2.1
    (by norm_num) (by decide)

/-- C9: if either building the authenticated client (including missing
client libraries) or the account/location discovery fails, the connect
action reports an error and leaves the session state untouched; both
session keys are written only when both steps succeed. -/
theorem claim_C9 {Service : Type} (avail : Bool)
    (buildResult : Except String Service)
    (discover : Service → Except String Accounts)
    (st : SessionState Service) :
    (∀ e, create_business_profile_service_from_service_account avail buildResult
        = .error e →
      connect_action
          (create_business_profile_service_from_service_account avail buildResult)
          discover st
        = (st, .error ("Error connecting: " ++ e))) ∧
    (∀ s e, create_business_profile_service_from_service_account avail buildResult
        = .ok s → discover s = .error e →
      connect_action
          (create_business_profile_service_from_service_account avail buildResult)
          discover st
        = (st, .error ("Error connecting: " ++ e))) ∧
    (avail = false →
      ∃ e, create_business_profile_service_from_service_account avail buildResult
        = .error e) ∧
    (∀ s a, create_business_profile_service_from_service_account avail buildResult
        = .ok s → discover s = .ok a →
      connect_action
          (create_business_profile_service_from_service_account avail buildResult)
          discover st
        = ({ bp_service := some s, bp_accounts := some a }, .success)) := by
  refine ⟨fun e h => ?_, fun s e hb hd => ?_, fun h => ?_, fun s a hb hd => ?_⟩
  · rw [connect_action.eq_def, h]
  · simp [connect_action.eq_def, hb, hd]
  · subst h
    exact ⟨_, rfl⟩
  · simp [connect_action.eq_def, hb, hd]

theorem claim_C9_witness :
    connect_action
        (create_business_profile_service_from_service_account false (.ok (0 : Nat)))
        (fun _ => .ok []) ({} : SessionState Nat)
      = ({} , .error ("Error connecting: " ++
          "googleapiclient or google-auth packages are not installed. See requirements.txt.")) :=
  (claim_C9 false (.ok 0) (fun _ => .ok []) {}).1 _ rfl

/-!
## Posting loop
-/

/-- A synthesized review resource name is never empty, hence truthy. -/
theorem truthyStr_synth (a id : String) :
    truthyStr (some (a ++ "/reviews/" ++ id)) = true := by
  simp only [truthyStr, bne_iff_ne, ne_eq]
  intro h
  have hlen := congrArg String.length h
  rw [String.length_append, String.length_append] at hlen
  rw [show ("/reviews/" : String).length = 9 from rfl] at hlen
  rw [show ("" : String).length = 0 from rfl] at hlen
  omega

/-- C1 counterexample: a review that carries a direct resource name but no
`reviewId` is not submitted with that name — the loop skips it with reason
"no reviewId" and performs no write call, although the claim requires the
carried resource name to be used for the write. -/
theorem claim_C1_counterexample :
    truthyStr c1CexItem.review.name = true ∧
    postOneTr [] (fun rn _ => .ok rn) c1CexItem = (.skipped "no reviewId", []) :=
  ⟨rfl, rfl⟩

/-- C1 (amended): at submission, a review with an absent or empty `reviewId`
is skipped with reason "no reviewId" — even if it carries a direct resource
name; otherwise a truthy direct resource name is used unmodified for the
write call; lacking one, if some discovered account has exactly one
location, the name `<locationPath>/reviews/<reviewId>` synthesized from the
first such account is used; otherwise the result is skipped with reason
"cannot construct review resource name".  In both skip cases no write call
happens (empty trace) for any provider behavior, so no exception can arise. -/
theorem claim_C1_amended (accounts : Accounts)
    (post : String → String → Except String String) (item : PostItem) :
    (truthyStr item.review.reviewId = false →
      postOneTr accounts post item = (.skipped "no reviewId", [])) ∧
    (truthyStr item.review.reviewId = true → truthyStr item.review.name = true →
      postOneTr accounts post item =
        (match post (item.review.name.getD "") item.reply_text with
          | .ok resp => (.posted (item.review.reviewId.getD "") resp,
              [(item.review.name.getD "", item.reply_text)])
          | .error e => (.failed (item.review.reviewId.getD "") e,
              [(item.review.name.getD "", item.reply_text)]))) ∧
    (truthyStr item.review.reviewId = true → truthyStr item.review.name = false →
      findSingleLocation accounts = none →
      postOneTr accounts post item =
        (.skipped "cannot construct review resource name", [])) ∧
    (∀ l, truthyStr item.review.reviewId = true → truthyStr item.review.name = false →
      findSingleLocation accounts = some l →
      postOneTr accounts post item =
        (match post (pyStr l.name ++ "/reviews/" ++ item.review.reviewId.getD "")
            item.reply_text with
          | .ok resp => (.posted (item.review.reviewId.getD "") resp,
              [(pyStr l.name ++ "/reviews/" ++ item.review.reviewId.getD "",
                item.reply_text)])
          | .error e => (.failed (item.review.reviewId.getD "") e,
              [(pyStr l.name ++ "/reviews/" ++ item.review.reviewId.getD "",
                item.reply_text)]))) := by
  refine ⟨fun h => ?_, fun h1 h2 => ?_, fun h1 h2 hf => ?_, fun l h1 h2 hf => ?_⟩
  · simp [postOneTr, h]
  · simp [postOneTr, h1, h2]
  · simp [postOneTr, h1, h2, hf, show truthyStr none = false from rfl]
  · simp [postOneTr, h1, h2, hf, truthyStr_synth]

theorem claim_C1_witness :
    postOneTr [("accounts/a1", [{ name := some "accounts/a1/locations/l1" }])]
        (fun rn _ => .ok rn)
        { review := { reviewId := some "r7" }, reply_text := "t" }
      = (.posted "r7" "accounts/a1/locations/l1/reviews/r7",
          [("accounts/a1/locations/l1/reviews/r7", "t")]) := by
  have h := (claim_C1_amended
      [("accounts/a1", [{ name := some "accounts/a1/locations/l1" }])]
      (fun rn _ => .ok rn)
      { review := { reviewId := some "r7" }, reply_text := "t" }).2.2.2
      { name := some "accounts/a1/locations/l1" } rfl rfl rfl
  exact h

/-- The visible result list of the posting loop is the per-item map. -/
theorem postSelectedTr_fst (accounts : Accounts)
    (post : String → String → Except String String) :
    ∀ l : List PostItem,
      (postSelectedTr accounts post l).1 = postSelected accounts post l
  | [] => rfl
  | x :: xs => by
    show (postOneTr accounts post x).1 :: (postSelectedTr accounts post xs).1
        = postOne accounts post x :: postSelected accounts post xs
    rw [postSelectedTr_fst accounts post xs]
    rfl

/-- C2: the selected replies are processed one at a time in selection order;
each attempted review yields exactly one outcome, the i-th outcome depends
only on the i-th item (so one failure neither aborts nor rolls back the
others), and in the 2-reply scenario where the first write succeeds and the
second errors the results are [posted, failed] in order with exactly one
write call per review (no retry). -/
theorem claim_C2 (accounts : Accounts)
    (post : String → String → Except String String) (to_post : List PostItem) :
    (postSelectedTr accounts post to_post).1 = postSelected accounts post to_post ∧
    (postSelected accounts post to_post).length = to_post.length ∧
    (∀ i : Nat, (postSelected accounts post to_post)[i]? =
      (to_post[i]?).map (postOne accounts post)) ∧
    postSelectedTr [] scPost scItems =
      ([.posted "r1" "ok", .failed "r2" "boom"],
        [("accounts/a/locations/l/reviews/r1", "t1"),
         ("accounts/a/locations/l/reviews/r2", "t2")]) := by
  refine ⟨postSelectedTr_fst accounts post to_post, ?_, ?_, ?_⟩
  · simp [postSelected]
  · intro i
    simp [postSelected, List.getElem?_map]
  · rfl

end ReviewsReply
